import Mathlib

/-!
Verification of the jansson-derived JSON loader (`src/thirdparty/jansson/load.cpp`)
of the watchman repository.  The C code is shallowly embedded: the byte stream,
the lexer (string / number scanning) and the recursive-descent parser become
Lean functions over explicit state records; machine integers become `Int`/`Nat`;
loops become fuel-indexed recursions returning `Option` (`none` = fuel
exhausted, which never happens for the concrete inputs considered).
-/

namespace Jansson

/-- ASCII bytes of a (pure-ASCII) Lean string literal; used for error-message
text and for concrete input samples. -/
def bytes (s : String) : List Nat := s.data.map Char.toNat

/-- `STREAM_STATE_OK` -/
def STREAM_STATE_OK : Int := 0
/-- `STREAM_STATE_EOF` -/
def STREAM_STATE_EOF : Int := -1
/-- `STREAM_STATE_ERROR` -/
def STREAM_STATE_ERROR : Int := -2

/-- `TOKEN_INVALID` -/
def TOKEN_INVALID : Int := -1
/-- `TOKEN_EOF` -/
def TOKEN_EOF : Int := 0
/-- `TOKEN_STRING` -/
def TOKEN_STRING : Int := 256
/-- `TOKEN_INTEGER` -/
def TOKEN_INTEGER : Int := 257
/-- `TOKEN_REAL` -/
def TOKEN_REAL : Int := 258
/-- `TOKEN_TRUE` -/
def TOKEN_TRUE : Int := 259
/-- `TOKEN_FALSE` -/
def TOKEN_FALSE : Int := 260
/-- `TOKEN_NULL` -/
def TOKEN_NULL : Int := 261

/-- `l_isupper(c)`: `'A' <= c && c <= 'Z'`. -/
def l_isupper (c : Int) : Bool := 65 ≤ c ∧ c ≤ 90

/-- `l_islower(c)`: `'a' <= c && c <= 'z'`. -/
def l_islower (c : Int) : Bool := 97 ≤ c ∧ c ≤ 122

/-- `l_isalpha(c)`. -/
def l_isalpha (c : Int) : Bool := l_isupper c || l_islower c

/-- `l_isdigit(c)`: `'0' <= c && c <= '9'`. -/
def l_isdigit (c : Int) : Bool := 48 ≤ c ∧ c ≤ 57

/-- `l_isxdigit(c)` exactly as the macro in load.cpp is written:
`(l_isdigit(c) || 'A' <= (c) || (c) <= 'F' || 'a' <= (c) || (c) <= 'f')`.
Note the absence of `&&`: this is the macro verbatim. -/
def l_isxdigit (c : Int) : Bool :=
  l_isdigit c || 65 ≤ c || c ≤ 70 || 97 ≤ c || c ≤ 102

/-- Modelled from the spec: `utf8_check_first` (utf.cpp is not part of the
analysed sources).  Returns the length of the UTF-8 sequence introduced by a
lead byte: 1 for plain ASCII, 2–4 for valid multi-byte lead bytes, 0 for
continuation bytes, overlong lead bytes `0xC0`/`0xC1` and bytes above `0xF4`. -/
def utf8_check_first (c : Nat) : Nat :=
  if c < 0x80 then 1
  else if c ≤ 0xBF then 0
  else if c ≤ 0xC1 then 0
  else if c ≤ 0xDF then 2
  else if c ≤ 0xEF then 3
  else if c ≤ 0xF4 then 4
  else 0

/-- Modelled from the spec: decoded code point of a UTF-8 sequence
(lead byte plus continuation bytes), used by the validity check below. -/
def utf8_value (buf : List Nat) : Nat :=
  match buf with
  | [] => 0
  | b :: rest =>
    let lead :=
      if b < 0x80 then b
      else if b ≤ 0xDF then b - 0xC0
      else if b ≤ 0xEF then b - 0xE0
      else b - 0xF0
    rest.foldl (fun acc c => acc * 64 + (c - 0x80)) lead

/-- Modelled from the spec: `utf8_check_full` (utf.cpp is not part of the
analysed sources).  Checks continuation-byte shape and rejects overlong,
surrogate and out-of-range encodings. -/
def utf8_check_full (buf : List Nat) : Bool :=
  match buf with
  | [] => false
  | _ :: rest =>
    rest.all (fun c => 0x80 ≤ c ∧ c ≤ 0xBF) &&
    (let v := utf8_value buf
     let n := buf.length
     (if n = 2 then 0x80 ≤ v
      else if n = 3 then 0x800 ≤ v
      else 0x10000 ≤ v) &&
     ¬(0xD800 ≤ v ∧ v ≤ 0xDFFF) && v ≤ 0x10FFFF)

/-- Modelled from the spec: `utf8_encode` — standard UTF-8 encoding of a code
point, `none` for a negative or out-of-range value. -/
def utf8_encode (v : Int) : Option (List Nat) :=
  if v < 0 then none
  else
    let n := v.toNat
    if n < 0x80 then some [n]
    else if n < 0x800 then some [0xC0 + n / 64, 0x80 + n % 64]
    else if n < 0x10000 then
      some [0xE0 + n / 4096, 0x80 + n / 64 % 64, 0x80 + n % 64]
    else if n ≤ 0x10FFFF then
      some [0xF0 + n / 262144, 0x80 + n / 4096 % 64, 0x80 + n / 64 % 64,
            0x80 + n % 64]
    else none

/-- `stream_t`: the pull-based byte stream.  `source` models the bytes the
`get_func` has not yet delivered (end of list = `EOF`); `buffer`/`buffer_pos`
model the ≤4-byte character buffer and its cursor (`buffer_pos = buffer.length`
plays the role of the NUL terminator check). -/
structure Stream where
  source : List Nat
  buffer : List Nat
  buffer_pos : Nat
  state : Int
  line : Int
  column : Int
  last_column : Int
  position : Nat
deriving Repr, DecidableEq

/-- `stream_init`. -/
def stream_init (source : List Nat) : Stream :=
  { source := source, buffer := [], buffer_pos := 0,
    state := STREAM_STATE_OK, line := 1, column := 0, last_column := 0,
    position := 0 }

/-- Take `n` continuation bytes from the source, padding with `0xFF` when the
source runs dry (the C code stores `EOF = -1` into a `char`, which the UTF-8
checker then sees as an invalid continuation byte). -/
def takeCont (n : Nat) (src : List Nat) : List Nat × List Nat :=
  match n, src with
  | 0, src => ([], src)
  | n + 1, [] => (List.replicate (n + 1) 0xFF, [])
  | n + 1, b :: rest =>
    let (bs, rest') := takeCont n rest
    (b :: bs, rest')

/-- The buffer-refill step of `stream_get` (the `if(!stream->buffer[...])`
block): pull the next character's bytes from the source, running the UTF-8
validation for multi-byte sequences.  `none` = end of input; the `Option Nat`
carries the offending byte on the decode-error path. -/
def stream_refill (s : Stream) : Option (Stream × Option Nat) :=
  if s.buffer_pos < s.buffer.length then some (s, none)
  else
    match s.source with
    | [] => none
    | c :: rest =>
      if 0x80 ≤ c then
        let count := utf8_check_first c
        if count = 0 then
          some ({ s with source := rest, buffer := [c], buffer_pos := 0,
                         state := STREAM_STATE_ERROR }, some c)
        else
          let (conts, rest') := takeCont (count - 1) rest
          let buf := c :: conts
          if utf8_check_full buf then
            some ({ s with source := rest', buffer := buf,
                           buffer_pos := 0 }, none)
          else
            some ({ s with source := rest', buffer := buf, buffer_pos := 0,
                           state := STREAM_STATE_ERROR }, some c)
      else
        some ({ s with source := rest, buffer := [c], buffer_pos := 0 },
              none)

/-- `stream_get`.  Returns the character (a byte as a non-negative `Int`, or a
negative stream-state sentinel), the updated stream, and — on the UTF-8 decode
error path — the offending byte, which the caller (`stream_to_lex` context)
feeds to `error_set` as `"unable to decode byte 0x%x"`. -/
def stream_get (s : Stream) : Int × Stream × Option Nat :=
  if s.state ≠ STREAM_STATE_OK then (s.state, s, none)
  else
    match stream_refill s with
    | none => (STREAM_STATE_EOF, { s with state := STREAM_STATE_EOF }, none)
    | some (s', ev) =>
      match ev with
      | some bad => (STREAM_STATE_ERROR, s', some bad)
      | none =>
        let c := s'.buffer.getD s'.buffer_pos 0
        let s'' := { s' with buffer_pos := s'.buffer_pos + 1,
                             position := s'.position + 1 }
        if c = 10 then
          (10, { s'' with line := s''.line + 1, last_column := s''.column,
                          column := 0 }, none)
        else if utf8_check_first c ≠ 0 then
          ((c : Int), { s'' with column := s''.column + 1 }, none)
        else
          ((c : Int), s'', none)

/-- `stream_unget`: push back the most recently returned byte, reversing the
position counters (the C `assert`s are contracts, not modelled). -/
def stream_unget (s : Stream) (c : Int) : Stream :=
  if c = STREAM_STATE_EOF ∨ c = STREAM_STATE_ERROR then s
  else
    let s' := { s with position := s.position - 1 }
    let s'' :=
      if c = 10 then
        { s' with line := s'.line - 1, column := s'.last_column }
      else if utf8_check_first c.toNat ≠ 0 then
        { s' with column := s'.column - 1 }
      else s'
    { s'' with buffer_pos := s''.buffer_pos - 1 }

/-- `lex_t`: the lexer state.  The C `union` payload becomes three separate
fields; `vString` is an `Option` so that `lex_steal_string` can null it out. -/
structure Lex where
  stream : Stream
  saved_text : List Nat
  token : Int
  vString : Option (List Nat)
  vInt : Int
  vReal : List Nat
deriving Repr, DecidableEq

/-- `json_error_t`: line, column, position and message text (empty text means
"no error recorded yet", mirroring `error->text[0] == '\0'`). -/
structure JError where
  line : Int
  column : Int
  position : Nat
  text : List Nat
deriving Repr, DecidableEq

/-- Modelled from the spec: `jsonp_error_init` (jansson_private, not among the
analysed sources): empty message, line/column −1, position 0. -/
def jsonp_error_init : JError :=
  { line := -1, column := -1, position := 0, text := [] }

/-- `JSON_ERROR_TEXT_LENGTH` (jansson.h): error-message buffers hold at most
this many bytes including the NUL terminator. -/
def JSON_ERROR_TEXT_LENGTH : Nat := 160

/-- Truncation performed by `snprintf`-style formatting into a
`JSON_ERROR_TEXT_LENGTH` buffer. -/
def errTrunc (l : List Nat) : List Nat := l.take (JSON_ERROR_TEXT_LENGTH - 1)

/-- Modelled from the spec: `jsonp_error_set` (jansson_private, not among the
analysed sources): record position data and message, but only if no error has
been recorded yet (first-failure-wins). -/
def jsonp_error_set (e : JError) (line col : Int) (pos : Nat)
    (text : List Nat) : JError :=
  if e.text ≠ [] then e
  else { line := line, column := col, position := pos, text := errTrunc text }

/-- `saved_text && saved_text[0]`: the C check that the current token's raw
text is non-empty (a leading NUL byte counts as empty). -/
def savedNonempty (saved : List Nat) : Bool :=
  match saved with
  | [] => false
  | b :: _ => b ≠ 0

/-- `error_set` (with the varargs message already formatted by the caller).
Appends `" near '<prefix>'"` (at most the first 20 bytes of the raw token
text, `%.*s` stopping at a NUL), or `" near end of file"`, or nothing for a
UTF-8 decode error, then delegates to `jsonp_error_set`. -/
def error_set (e : JError) (lex : Option Lex) (msg : List Nat) : JError :=
  let msg_text := errTrunc msg
  match lex with
  | some lex =>
    let line := lex.stream.line
    let col := lex.stream.column
    let pos := lex.stream.position
    if savedNonempty lex.saved_text then
      let context_length := min 20 lex.saved_text.length
      let ctx := (lex.saved_text.take context_length).takeWhile (· ≠ 0)
      jsonp_error_set e line col pos
        (errTrunc (msg_text ++ bytes " near '" ++ ctx ++ bytes "'"))
    else if lex.stream.state = STREAM_STATE_ERROR then
      jsonp_error_set e line col pos msg_text
    else
      jsonp_error_set e line col pos
        (errTrunc (msg_text ++ bytes " near end of file"))
  | none => jsonp_error_set e (-1) (-1) 0 msg_text

/-- Lowercase hex digit. -/
def hexDigitLower (d : Nat) : Nat := if d < 10 then 48 + d else 87 + d

/-- Uppercase hex digit. -/
def hexDigitUpper (d : Nat) : Nat := if d < 10 then 48 + d else 55 + d

/-- `%x`: minimal-width lowercase hexadecimal of a natural number. -/
def hexNat (n : Nat) : List Nat :=
  (Nat.toDigits 16 n).map Char.toNat

/-- `%04X`: four-digit uppercase hexadecimal of a value below 0x10000. -/
def hex4Upper (n : Nat) : List Nat :=
  [hexDigitUpper (n / 4096 % 16), hexDigitUpper (n / 256 % 16),
   hexDigitUpper (n / 16 % 16), hexDigitUpper (n % 16)]

/-- `lex_init` over a byte source. -/
def lex_init (source : List Nat) : Lex :=
  { stream := stream_init source, saved_text := [], token := TOKEN_INVALID,
    vString := none, vInt := 0, vReal := [] }

/-- `lex_get`: pull a character from the stream; a UTF-8 decode failure feeds
`"unable to decode byte 0x%x"` to `error_set` (the C code reaches the lexer
through `stream_to_lex`). -/
def lex_get (lex : Lex) (e : JError) : Int × Lex × JError :=
  let (c, s, ev) := stream_get lex.stream
  let lex' := { lex with stream := s }
  match ev with
  | some bad =>
    (c, lex', error_set e (some lex')
      (bytes "unable to decode byte 0x" ++ hexNat bad))
  | none => (c, lex', e)

/-- `lex_save`. -/
def lex_save (lex : Lex) (c : Int) : Lex :=
  { lex with saved_text := lex.saved_text ++ [c.toNat] }

/-- `lex_get_save`. -/
def lex_get_save (lex : Lex) (e : JError) : Int × Lex × JError :=
  let (c, lex', e') := lex_get lex e
  if c ≠ STREAM_STATE_EOF ∧ c ≠ STREAM_STATE_ERROR then
    (c, lex_save lex' c, e')
  else (c, lex', e')

/-- `lex_unget`. -/
def lex_unget (lex : Lex) (c : Int) : Lex :=
  { lex with stream := stream_unget lex.stream c }

/-- `lex_unget_unsave`: push back and drop the byte from the saved text. -/
def lex_unget_unsave (lex : Lex) (c : Int) : Lex :=
  if c ≠ STREAM_STATE_EOF ∧ c ≠ STREAM_STATE_ERROR then
    { lex with stream := stream_unget lex.stream c,
               saved_text := lex.saved_text.dropLast }
  else lex

/-- `lex_save_cached`: drain the remaining bytes of the current character
buffer into the saved text (position advances, line/column do not). -/
def lex_save_cached (lex : Lex) : Lex :=
  let pending := lex.stream.buffer.drop lex.stream.buffer_pos
  let s := { lex.stream with
             buffer_pos := lex.stream.buffer.length,
             position := lex.stream.position + pending.length }
  { lex with saved_text := lex.saved_text ++ pending, stream := s }

/-- The loop body of `decode_unicode_escape`: shift in one hex digit.  The C
asserts each character is a hex digit; the unreachable non-hex branch leaves
the accumulated value shifted. -/
def decode_hex_step (value : Int) (ch : Nat) : Int :=
  let c : Int := ch
  let value := value * 16
  if l_isdigit c then value + (c - 48)
  else if l_islower c then value + (c - 97 + 10)
  else if l_isupper c then value + (c - 65 + 10)
  else value

/-- `decode_unicode_escape`: `str` points at `'u'` followed by four hex
digits; folds them base-16. -/
def decode_unicode_escape (str : List Nat) : Int :=
  ((str.drop 1).take 4).foldl decode_hex_step 0

/-- The `for(i = 0; i < 4; i++)` hex-digit validation inside
`lex_scan_string`'s first pass: check the current character with
`l_isxdigit`, then read the next.  Returns `none` in the first component when
`"invalid escape"` was reported. -/
def scanHex : Nat → Int → Lex → JError → Option Int × Lex × JError
  | 0, c, lex, e => (some c, lex, e)
  | n + 1, c, lex, e =>
    if ¬ l_isxdigit c then
      (none, lex, error_set e (some lex) (bytes "invalid escape"))
    else
      let (c', lex', e') := lex_get_save lex e
      scanHex n c' lex' e'

/-- First pass of `lex_scan_string` (the `while(c != '"')` validation loop).
`true` means the closing quote was reached; `false` means the `out` label. -/
def scanStringRaw : Nat → Int → Lex → JError → Option (Bool × Lex × JError)
  | 0, _, _, _ => none
  | fuel + 1, c, lex, e =>
    if c = 34 then some (true, lex, e)
    else if c = STREAM_STATE_ERROR then some (false, lex, e)
    else if c = STREAM_STATE_EOF then
      some (false, lex, error_set e (some lex) (bytes "premature end of input"))
    else if 0 ≤ c ∧ c ≤ 0x1F then
      let lex' := lex_unget_unsave lex c
      if c = 10 then
        some (false, lex', error_set e (some lex') (bytes "unexpected newline"))
      else
        some (false, lex', error_set e (some lex')
          (bytes "control character 0x" ++ hexNat c.toNat))
    else if c = 92 then
      let (c2, lex', e') := lex_get_save lex e
      if c2 = 117 then
        let (c3, lex'', e'') := lex_get_save lex' e'
        match scanHex 4 c3 lex'' e'' with
        | (none, lexF, eF) => some (false, lexF, eF)
        | (some c4, lexN, eN) => scanStringRaw fuel c4 lexN eN
      else if c2 = 34 ∨ c2 = 92 ∨ c2 = 47 ∨ c2 = 98 ∨ c2 = 102 ∨ c2 = 110 ∨
              c2 = 114 ∨ c2 = 116 then
        let (c3, lex'', e'') := lex_get_save lex' e'
        scanStringRaw fuel c3 lex'' e''
      else
        some (false, lex', error_set e' (some lex') (bytes "invalid escape"))
    else
      let (c2, lex', e') := lex_get_save lex e
      scanStringRaw fuel c2 lex' e'

/-- Second pass of `lex_scan_string`: walk the saved raw text (starting just
past the opening quote) and build the decoded string `t`.  `some t` in the
first component means the closing quote was reached, `none` means an error
was reported (`goto out`). -/
def decodeStringTail : Nat → List Nat → List Nat → Lex → JError →
    Option (Option (List Nat) × Lex × JError)
  | 0, _, _, _, _ => none
  | fuel + 1, p, t, lex, e =>
    match p with
    | [] => none
    | b :: rest =>
      if b = 34 then some (some t, lex, e)
      else if b = 92 then
        match rest with
        | [] => none
        | b2 :: rest2 =>
          if b2 = 117 then
            let value := decode_unicode_escape (b2 :: rest2)
            let p' := rest2.drop 4
            if 0xD800 ≤ value ∧ value ≤ 0xDBFF then
              match p' with
              | 92 :: 117 :: rest3 =>
                let value2 := decode_unicode_escape (117 :: rest3)
                let p'' := rest3.drop 4
                if 0xDC00 ≤ value2 ∧ value2 ≤ 0xDFFF then
                  let value' :=
                    (value - 0xD800) * 1024 + (value2 - 0xDC00) + 0x10000
                  let enc := (utf8_encode value').getD []
                  decodeStringTail fuel p'' (t ++ enc) lex e
                else
                  some (none, lex, error_set e (some lex)
                    (bytes "invalid Unicode '\\u" ++ hex4Upper value.toNat ++
                     bytes "\\u" ++ hex4Upper value2.toNat ++ bytes "'"))
              | _ =>
                some (none, lex, error_set e (some lex)
                  (bytes "invalid Unicode '\\u" ++ hex4Upper value.toNat ++
                   bytes "'"))
            else if 0xDC00 ≤ value ∧ value ≤ 0xDFFF then
              some (none, lex, error_set e (some lex)
                (bytes "invalid Unicode '\\u" ++ hex4Upper value.toNat ++
                 bytes "'"))
            else if value = 0 then
              some (none, lex, error_set e (some lex)
                (bytes "\\u0000 is not allowed"))
            else
              let enc := (utf8_encode value).getD []
              decodeStringTail fuel p' (t ++ enc) lex e
          else
            let out :=
              if b2 = 34 ∨ b2 = 92 ∨ b2 = 47 then [b2]
              else if b2 = 98 then [8]
              else if b2 = 102 then [12]
              else if b2 = 110 then [10]
              else if b2 = 114 then [13]
              else if b2 = 116 then [9]
              else []   -- unreachable: the first pass admits no other escape
            decodeStringTail fuel rest2 (t ++ out) lex e
      else
        decodeStringTail fuel rest (t ++ [b]) lex e

/-- `lex_scan_string`: validation pass over the input, then decoding pass over
the saved raw text (`strbuffer_value + 1` skips the already-saved opening
quote). -/
def lex_scan_string (fuel : Nat) (lex : Lex) (e : JError) :
    Option (Lex × JError) :=
  let lex := { lex with vString := none, token := TOKEN_INVALID }
  let (c, lex, e) := lex_get_save lex e
  match scanStringRaw fuel c lex e with
  | none => none
  | some (false, lex, e) => some (lex, e)
  | some (true, lex, e) =>
    match decodeStringTail fuel (lex.saved_text.drop 1) [] lex e with
    | none => none
    | some (none, lex, e) => some (lex, e)
    | some (some t, lex, e) =>
      some ({ lex with vString := some t, token := TOKEN_STRING }, e)

/-- Modelled from the spec: `json_strtoint` (`strtoll`), a locale-independent
decimal integer parse over the saved literal text with overflow detection;
returns the (clamped) value and the `ERANGE` flag. -/
def json_strtoint (s : List Nat) : Int × Bool :=
  let (neg, digits) :=
    match s with
    | 45 :: rest => (true, rest)
    | _ => (false, s)
  let mag : Int := digits.foldl (fun a d => a * 10 + ((d : Int) - 48)) 0
  let v := if neg then -mag else mag
  if v > 9223372036854775807 then (9223372036854775807, true)
  else if v < -9223372036854775808 then (-9223372036854775808, true)
  else (v, false)

/-- `while(l_isdigit(c)) c = lex_get_save(lex, error);` -/
def scanDigits : Nat → Int → Lex → JError → Option (Int × Lex × JError)
  | 0, _, _, _ => none
  | fuel + 1, c, lex, e =>
    if l_isdigit c then
      let (c', lex', e') := lex_get_save lex e
      scanDigits fuel c' lex' e'
    else some (c, lex, e)

/-- Tail of `lex_scan_number` from the `if(c != '.' && c != 'E' && c != 'e')`
check on: integer conversion, or fraction/exponent scanning followed by the
real conversion (`jsonp_strtod` is modelled from the spec as a
correctly-rounded decimal conversion; the double payload is represented by
the raw literal text and the overflow rejection is not exercised).  The
`Bool` result is `true` for `return 0` and `false` for the `out` label. -/
def numTail (fuel : Nat) (c : Int) (lex : Lex) (e : JError) :
    Option (Bool × Lex × JError) :=
  if c ≠ 46 ∧ c ≠ 69 ∧ c ≠ 101 then
    let lex := lex_unget_unsave lex c
    match json_strtoint lex.saved_text with
    | (value, true) =>
      if value < 0 then
        some (false, lex, error_set e (some lex)
          (bytes "too big negative integer"))
      else
        some (false, lex, error_set e (some lex) (bytes "too big integer"))
    | (value, false) =>
      some (true, { lex with token := TOKEN_INTEGER, vInt := value }, e)
  else
    let frac : Option ((Bool × Lex × JError) ⊕ (Int × Lex × JError)) :=
      if c = 46 then
        let (c2, lex, e) := lex_get lex e
        if ¬ l_isdigit c2 then some (.inl (false, lex_unget lex c2, e))
        else
          let lex := lex_save lex c2
          let (c3, lex, e) := lex_get_save lex e
          match scanDigits fuel c3 lex e with
          | none => none
          | some r => some (.inr r)
      else some (.inr (c, lex, e))
    match frac with
    | none => none
    | some (.inl r) => some r
    | some (.inr (c, lex, e)) =>
      let expo : Option ((Bool × Lex × JError) ⊕ (Int × Lex × JError)) :=
        if c = 69 ∨ c = 101 then
          let (c2, lex, e) := lex_get_save lex e
          let (c3, lex, e) :=
            if c2 = 43 ∨ c2 = 45 then lex_get_save lex e else (c2, lex, e)
          if ¬ l_isdigit c3 then
            some (.inl (false, lex_unget_unsave lex c3, e))
          else
            let (c4, lex, e) := lex_get_save lex e
            match scanDigits fuel c4 lex e with
            | none => none
            | some r => some (.inr r)
        else some (.inr (c, lex, e))
      match expo with
      | none => none
      | some (.inl r) => some r
      | some (.inr (c, lex, e)) =>
        let lex := lex_unget_unsave lex c
        some (true, { lex with token := TOKEN_REAL,
                               vReal := lex.saved_text }, e)

/-- `lex_scan_number`: the strict number grammar (leading `-`, `0` or a
nonzero-led digit run, optional fraction, optional exponent), dispatching to
the integer or real conversion in `numTail`. -/
def lex_scan_number (fuel : Nat) (c0 : Int) (lex : Lex) (e : JError) :
    Option (Bool × Lex × JError) :=
  let lex := { lex with token := TOKEN_INVALID }
  let (c, lex, e) := if c0 = 45 then lex_get_save lex e else (c0, lex, e)
  if c = 48 then
    let (c2, lex, e) := lex_get_save lex e
    if l_isdigit c2 then
      some (false, lex_unget_unsave lex c2, e)
    else numTail fuel c2 lex e
  else if l_isdigit c then
    let (c2, lex, e) := lex_get_save lex e
    match scanDigits fuel c2 lex e with
    | none => none
    | some (c3, lex, e) => numTail fuel c3 lex e
  else
    some (false, lex_unget_unsave lex c, e)

/-- The whitespace-skipping loop at the top of `lex_scan`. -/
def wsSkip : Nat → Lex → JError → Option (Int × Lex × JError)
  | 0, _, _ => none
  | fuel + 1, lex, e =>
    let (c, lex', e') := lex_get lex e
    if c = 32 ∨ c = 9 ∨ c = 10 ∨ c = 13 then wsSkip fuel lex' e'
    else some (c, lex', e')

/-- `while(l_isalpha(c)) c = lex_get_save(lex, error);` of the keyword
branch. -/
def scanAlpha : Nat → Int → Lex → JError → Option (Int × Lex × JError)
  | 0, _, _, _ => none
  | fuel + 1, c, lex, e =>
    if l_isalpha c then
      let (c', lex', e') := lex_get_save lex e
      scanAlpha fuel c' lex' e'
    else some (c, lex, e)

/-- `lex_scan`: clear the saved text (and a previous string payload), skip
whitespace, then recognize one token. -/
def lex_scan (fuel : Nat) (lex : Lex) (e : JError) : Option (Lex × JError) :=
  let lex := { lex with saved_text := [] }
  let lex :=
    if lex.token = TOKEN_STRING then { lex with vString := none } else lex
  match wsSkip fuel lex e with
  | none => none
  | some (c, lex, e) =>
    if c = STREAM_STATE_EOF then some ({ lex with token := TOKEN_EOF }, e)
    else if c = STREAM_STATE_ERROR then
      some ({ lex with token := TOKEN_INVALID }, e)
    else
      let lex := lex_save lex c
      if c = 123 ∨ c = 125 ∨ c = 91 ∨ c = 93 ∨ c = 58 ∨ c = 44 then
        some ({ lex with token := c }, e)
      else if c = 34 then lex_scan_string fuel lex e
      else if l_isdigit c ∨ c = 45 then
        match lex_scan_number fuel c lex e with
        | none => none
        | some (_, lex, e) => some (lex, e)
      else if l_isalpha c then
        let (c2, lex, e) := lex_get_save lex e
        match scanAlpha fuel c2 lex e with
        | none => none
        | some (c3, lex, e) =>
          let lex := lex_unget_unsave lex c3
          let lex :=
            if lex.saved_text = bytes "true" then
              { lex with token := TOKEN_TRUE }
            else if lex.saved_text = bytes "false" then
              { lex with token := TOKEN_FALSE }
            else if lex.saved_text = bytes "null" then
              { lex with token := TOKEN_NULL }
            else { lex with token := TOKEN_INVALID }
          some (lex, e)
      else
        some ({ lex_save_cached lex with token := TOKEN_INVALID }, e)

/-- `lex_steal_string`. -/
def lex_steal_string (lex : Lex) : Option (List Nat) × Lex :=
  if lex.token = TOKEN_STRING then (lex.vString, { lex with vString := none })
  else (none, lex)

/-- The value tree.  Modelled from the spec: the builder collaborator's nodes
(objects keep their members in insertion order; the real payload carries the
raw literal text, standing in for the converted double). -/
inductive Json where
  | null : Json
  | bool (b : Bool) : Json
  | int (n : Int) : Json
  | real (raw : List Nat) : Json
  | str (s : List Nat) : Json
  | arr (elems : List Json) : Json
  | obj (members : List (List Nat × Json)) : Json

/-- Modelled from the spec: builder operation lookup-key on an object. -/
def json_object_get (members : List (List Nat × Json)) (key : List Nat) :
    Option Json :=
  (members.find? (fun kv => kv.1 = key)).map (·.2)

/-- Modelled from the spec: builder operation set-key-overwrite on an object
(last write wins). -/
def json_object_set (members : List (List Nat × Json)) (key : List Nat)
    (v : Json) : List (List Nat × Json) :=
  if members.any (fun kv => kv.1 = key) then
    members.map (fun kv => if kv.1 = key then (key, v) else kv)
  else members ++ [(key, v)]

/-- The three decoding options (`JSON_DECODE_ANY`, `JSON_DISABLE_EOF_CHECK`,
`JSON_REJECT_DUPLICATES`). -/
structure Flags where
  decode_any : Bool
  disable_eof_check : Bool
  reject_duplicates : Bool
deriving Repr, DecidableEq

/-- The default flag set (no bits). -/
def flagsDefault : Flags :=
  { decode_any := false, disable_eof_check := false,
    reject_duplicates := false }

/-- The recursive-descent parser at a given fuel level: `parse_value`,
`parse_object` (split into its entry and its member loop) and `parse_array`
(likewise).  A single structural recursion on the fuel packages the mutual
recursion of the C functions; the result is `none` when the fuel runs out,
and otherwise carries the C return value (`some json` / `nullptr`). -/
structure ParserAt where
  value : Flags → Lex → JError → Option (Option Json × Lex × JError)
  objEntry : Flags → Lex → JError → Option (Option Json × Lex × JError)
  objLoop : Flags → List (List Nat × Json) → Lex → JError →
    Option (Option Json × Lex × JError)
  arrEntry : Flags → Lex → JError → Option (Option Json × Lex × JError)
  arrLoop : Flags → List Json → Lex → JError →
    Option (Option Json × Lex × JError)

/-- One fuel level of the recursive-descent parser.  Each field transcribes
the corresponding C function body (`parse_value`, `parse_object`,
`parse_array`); recursive calls go through the previous level `P`. -/
def parserStep (fuel : Nat) (P : ParserAt) : ParserAt where
  value := fun fl lex e =>
    if lex.token = TOKEN_STRING then
      some (some (.str (lex.vString.getD [])), lex, e)
    else if lex.token = TOKEN_INTEGER then some (some (.int lex.vInt), lex, e)
    else if lex.token = TOKEN_REAL then some (some (.real lex.vReal), lex, e)
    else if lex.token = TOKEN_TRUE then some (some (.bool true), lex, e)
    else if lex.token = TOKEN_FALSE then some (some (.bool false), lex, e)
    else if lex.token = TOKEN_NULL then some (some .null, lex, e)
    else if lex.token = 123 then P.objEntry fl lex e
    else if lex.token = 91 then P.arrEntry fl lex e
    else if lex.token = TOKEN_INVALID then
      some (none, lex, error_set e (some lex) (bytes "invalid token"))
    else
      some (none, lex, error_set e (some lex) (bytes "unexpected token"))
  objEntry := fun fl lex e =>
    match lex_scan fuel lex e with
    | none => none
    | some (lex, e) =>
      if lex.token = 125 then some (some (.obj []), lex, e)
      else P.objLoop fl [] lex e
  objLoop := fun fl object lex e =>
    if lex.token ≠ TOKEN_STRING then
      some (none, lex, error_set e (some lex) (bytes "string or '\x7d' expected"))
    else
      let (key?, lex) := lex_steal_string lex
      match key? with
      | none => some (none, lex, e)
      | some key =>
        if fl.reject_duplicates ∧ (json_object_get object key).isSome then
          some (none, lex, error_set e (some lex)
            (bytes "duplicate object key"))
        else
          match lex_scan fuel lex e with
          | none => none
          | some (lex, e) =>
            if lex.token ≠ 58 then
              some (none, lex, error_set e (some lex) (bytes "':' expected"))
            else
              match lex_scan fuel lex e with
              | none => none
              | some (lex, e) =>
                match P.value fl lex e with
                | none => none
                | some (none, lex, e) => some (none, lex, e)
                | some (some value, lex, e) =>
                  let object := json_object_set object key value
                  match lex_scan fuel lex e with
                  | none => none
                  | some (lex, e) =>
                    if lex.token ≠ 44 then
                      if lex.token ≠ 125 then
                        some (none, lex, error_set e (some lex)
                          (bytes "'\x7d' expected"))
                      else some (some (.obj object), lex, e)
                    else
                      match lex_scan fuel lex e with
                      | none => none
                      | some (lex, e) => P.objLoop fl object lex e
  arrEntry := fun fl lex e =>
    match lex_scan fuel lex e with
    | none => none
    | some (lex, e) =>
      if lex.token = 93 then some (some (.arr []), lex, e)
      else P.arrLoop fl [] lex e
  arrLoop := fun fl array lex e =>
    if lex.token = TOKEN_EOF then
      some (none, lex, error_set e (some lex) (bytes "']' expected"))
    else
      match P.value fl lex e with
      | none => none
      | some (none, lex, e) => some (none, lex, e)
      | some (some elem, lex, e) =>
        let array := array ++ [elem]
        match lex_scan fuel lex e with
        | none => none
        | some (lex, e) =>
          if lex.token ≠ 44 then
            if lex.token ≠ 93 then
              some (none, lex, error_set e (some lex) (bytes "']' expected"))
            else some (some (.arr array), lex, e)
          else
            match lex_scan fuel lex e with
            | none => none
            | some (lex, e) => P.arrLoop fl array lex e

/-- The fuel-exhausted parser level. -/
def parserZero : ParserAt where
  value := fun _ _ _ => none
  objEntry := fun _ _ _ => none
  objLoop := fun _ _ _ _ => none
  arrEntry := fun _ _ _ => none
  arrLoop := fun _ _ _ _ => none

/-- The parser tower. -/
def parserAt : Nat → ParserAt
  | 0 => parserZero
  | fuel + 1 => parserStep (fuel + 1) (parserAt fuel)

/-- `parse_value`. -/
def parse_value (fuel : Nat) (fl : Flags) (lex : Lex) (e : JError) :
    Option (Option Json × Lex × JError) :=
  (parserAt fuel).value fl lex e

/-- `parse_object`. -/
def parse_object (fuel : Nat) (fl : Flags) (lex : Lex) (e : JError) :
    Option (Option Json × Lex × JError) :=
  (parserAt fuel).objEntry fl lex e

/-- `parse_array`. -/
def parse_array (fuel : Nat) (fl : Flags) (lex : Lex) (e : JError) :
    Option (Option Json × Lex × JError) :=
  (parserAt fuel).arrEntry fl lex e

/-- `parse_json`: the top-level entry — scan one token, enforce the
top-level-shape rule, parse one value, optionally require `END`, then record
the bytes-consumed position in the error record. -/
def parse_json (fuel : Nat) (fl : Flags) (lex : Lex) (e : JError) :
    Option (Option Json × Lex × JError) :=
  match lex_scan fuel lex e with
  | none => none
  | some (lex, e) =>
    if ¬ fl.decode_any ∧ lex.token ≠ 91 ∧ lex.token ≠ 123 then
      some (none, lex, error_set e (some lex) (bytes "'[' or '\x7b' expected"))
    else
      match parse_value fuel fl lex e with
      | none => none
      | some (none, lex, e) => some (none, lex, e)
      | some (some result, lex, e) =>
        if ¬ fl.disable_eof_check then
          match lex_scan fuel lex e with
          | none => none
          | some (lex, e) =>
            if lex.token ≠ TOKEN_EOF then
              some (none, lex, error_set e (some lex)
                (bytes "end of file expected"))
            else
              some (some result, lex,
                    { e with position := lex.stream.position })
        else
          some (some result, lex, { e with position := lex.stream.position })

/-- `json_loadb`: decode a length-delimited buffer (fresh lexer, fresh error
record). -/
def json_loadb (buf : List Nat) (fuel : Nat) (fl : Flags) :
    Option (Option Json × JError) :=
  (parse_json fuel fl (lex_init buf) jsonp_error_init).map
    (fun r => (r.1, r.2.2))

/-- `JSON_DECODE_ANY` alone. -/
def flagsAny : Flags :=
  { decode_any := true, disable_eof_check := false,
    reject_duplicates := false }

/-- `JSON_DISABLE_EOF_CHECK` alone. -/
def flagsNoEof : Flags :=
  { decode_any := false, disable_eof_check := true,
    reject_duplicates := false }

/-- `JSON_REJECT_DUPLICATES` alone. -/
def flagsRejectDup : Flags :=
  { decode_any := false, disable_eof_check := false,
    reject_duplicates := true }

/-- Spec-side definition (follows the spec's words, for comparison with the
lexer): a decimal digit. -/
def specDigit (c : Nat) : Bool := 48 ≤ c ∧ c ≤ 57

/-- Spec-side: consume one or more digits. -/
def specDigits1 : List Nat → Option (List Nat)
  | [] => none
  | c :: rest => if specDigit c then some (rest.dropWhile specDigit) else none

/-- Spec-side: "either the single digit `0` or a digit run not starting
with `0`". -/
def specIntPart : List Nat → Option (List Nat)
  | [] => none
  | c :: rest =>
    if c = 48 then some rest
    else if specDigit c then some (rest.dropWhile specDigit) else none

/-- Spec-side: "optional fractional part: `.` followed by one or more
digits (a lone `.` with no following digit is an error)". -/
def specFrac : List Nat → Option (List Nat × Bool)
  | 46 :: rest => (specDigits1 rest).map (fun r => (r, true))
  | s => some (s, false)

/-- Spec-side: "optional exponent: `[eE]` optionally followed by `+`/`-`,
then one or more digits (missing exponent digits is an error)". -/
def specExp : List Nat → Option (List Nat × Bool)
  | c :: rest =>
    if c = 101 ∨ c = 69 then
      match rest with
      | c2 :: rest2 =>
        if c2 = 43 ∨ c2 = 45 then (specDigits1 rest2).map (fun r => (r, true))
        else (specDigits1 rest).map (fun r => (r, true))
      | [] => none
    else some (c :: rest, false)
  | [] => some ([], false)

/-- Spec-side: the whole strict number grammar applied to an entire input
(optional `-`, integer part, optional fraction, optional exponent, nothing
left over).  `some false` = an INTEGER literal, `some true` = a REAL literal,
`none` = not a number literal. -/
def specNumberMatch (s : List Nat) : Option Bool :=
  let s1 := match s with
    | 45 :: rest => rest
    | _ => s
  match specIntPart s1 with
  | none => none
  | some r1 =>
    match specFrac r1 with
    | none => none
    | some (r2, hasFrac) =>
      match specExp r2 with
      | none => none
      | some (r3, hasExp) =>
        if r3 = [] then some (hasFrac || hasExp) else none

/-- What the lexer makes of an input as one whole number literal: INTEGER
(`some false`) or REAL (`some true`) with the entire input as the token's
raw text, anything else `none`. -/
def scanNumberOutcome (s : List Nat) : Option Bool :=
  match lex_scan 20 (lex_init s) jsonp_error_init with
  | none => none
  | some (l, _) =>
    if l.token = TOKEN_INTEGER ∧ l.saved_text = s then some false
    else if l.token = TOKEN_REAL ∧ l.saved_text = s then some true
    else none

/-- The bytes a number literal can be built from: `0 1 5 . e E + -`. -/
def numAlphabet : List Nat := bytes "015.eE+-"

/-- All strings of length at most `n` over `numAlphabet`. -/
def tuplesUpTo : Nat → List (List Nat)
  | 0 => [[]]
  | n + 1 =>
    [] :: (tuplesUpTo n).flatMap (fun s => numAlphabet.map (fun c => c :: s))

/-- C6: the byte stream's status is sticky: once `stream_get` has left the
`Ok` state, every call returns the recorded sentinel unchanged — the stream
(source included) is not touched, no error event is raised, and the state
never returns to `Ok`. -/
theorem C6_stream_state_sticky (s : Stream)
    (h : s.state ≠ STREAM_STATE_OK) :
    stream_get s = (s.state, s, none) := by
  simp [stream_get, h]

/-- Witness for C6: a stream latched at `STREAM_STATE_EOF` (with bytes still
in its source) keeps returning `STREAM_STATE_EOF` and stays unchanged. -/
theorem C6_stream_state_sticky_witness :
    stream_get ⟨[97], [], 0, STREAM_STATE_EOF, 1, 0, 0, 0⟩ =
      (STREAM_STATE_EOF, ⟨[97], [], 0, STREAM_STATE_EOF, 1, 0, 0, 0⟩, none) :=
  C6_stream_state_sticky ⟨[97], [], 0, STREAM_STATE_EOF, 1, 0, 0, 0⟩
    (by decide)

/-- C8: first failure wins — once the error record holds a message, every
later `error_set` call is a no-op, so the diagnostic returned to the caller
is the first error encountered. -/
theorem C8_error_set_first_failure_wins (e : JError) (lex : Option Lex)
    (msg : List Nat) (h : e.text ≠ []) : error_set e lex msg = e := by
  unfold error_set jsonp_error_set
  cases lex <;> simp [h]

/-- Witness for C8: a recorded error survives a later `error_set`. -/
theorem C8_error_set_first_failure_wins_witness :
    error_set ⟨3, 5, 7, bytes "first"⟩ none (bytes "second") =
      ⟨3, 5, 7, bytes "first"⟩ :=
  C8_error_set_first_failure_wins ⟨3, 5, 7, bytes "first"⟩ none
    (bytes "second") (by decide)

/-- Truncation to the error buffer size is idempotent. -/
theorem errTrunc_idem (l : List Nat) : errTrunc (errTrunc l) = errTrunc l := by
  simp [errTrunc, List.take_take]

/-- C9: error-message contextualization.  With a fresh error record: a
non-empty raw token text appends `" near '<prefix>'"` with at most the first
20 bytes of the raw text; an empty raw text with the stream in the `Error`
state appends nothing; an empty raw text otherwise appends
`" near end of file"`.  The closing conjunct is the spec's example: the
single isolated byte `0xFF` is rejected as a decode error with no "near"
context. -/
theorem C9_error_context (e : JError) (lex : Lex) (msg : List Nat)
    (hfresh : e.text = []) :
    (savedNonempty lex.saved_text = true →
      (error_set e (some lex) msg).text =
        errTrunc (errTrunc msg ++ bytes " near '" ++
          (lex.saved_text.take (min 20 lex.saved_text.length)).takeWhile
            (· ≠ 0) ++ bytes "'")) ∧
    (savedNonempty lex.saved_text = false →
      lex.stream.state = STREAM_STATE_ERROR →
      (error_set e (some lex) msg).text = errTrunc msg) ∧
    (savedNonempty lex.saved_text = false →
      lex.stream.state ≠ STREAM_STATE_ERROR →
      (error_set e (some lex) msg).text =
        errTrunc (errTrunc msg ++ bytes " near end of file")) ∧
    json_loadb [0xFF] 10 flagsDefault =
      some (none, ⟨1, 0, 0, bytes "unable to decode byte 0xff"⟩) := by
  refine ⟨fun h1 => ?_, fun h1 h2 => ?_, fun h1 h2 => ?_, by rfl⟩ <;>
    simp [error_set, jsonp_error_set, errTrunc_idem, hfresh, h1, *]

/-- Witness for C9: a token with raw text `42` puts `near '42'` into the
message. -/
theorem C9_error_context_witness :
    (error_set jsonp_error_init
        (some { stream := stream_init [], saved_text := bytes "42",
                token := TOKEN_INTEGER, vString := none, vInt := 42,
                vReal := [] })
        (bytes "'[' or '\x7b' expected")).text =
      bytes "'[' or '\x7b' expected near '42'" := by
  have h := (C9_error_context jsonp_error_init
    { stream := stream_init [], saved_text := bytes "42",
      token := TOKEN_INTEGER, vString := none, vInt := 42, vReal := [] }
    (bytes "'[' or '\x7b' expected") rfl).1 (by decide)
  rw [h]; decide

/-- The refill step never touches the position counters. -/
theorem stream_refill_counters (s s' : Stream) (ev : Option Nat)
    (h : stream_refill s = some (s', ev)) :
    s'.line = s.line ∧ s'.column = s.column ∧
    s'.last_column = s.last_column ∧ s'.position = s.position := by
  unfold stream_refill at h
  split at h
  case isTrue =>
    injection h with h'
    injection h' with h1 h2
    subst h1
    exact ⟨rfl, rfl, rfl, rfl⟩
  case isFalse =>
    split at h
    case h_1 => exact Option.noConfusion h
    case h_2 c rest =>
      split at h
      case isTrue =>
        dsimp only at h
        split at h
        case isTrue =>
          injection h with h'
          injection h' with h1 h2
          subst h1
          exact ⟨rfl, rfl, rfl, rfl⟩
        case isFalse =>
          split at h
          case isTrue =>
            injection h with h'
            injection h' with h1 h2
            subst h1
            exact ⟨rfl, rfl, rfl, rfl⟩
          case isFalse =>
            injection h with h'
            injection h' with h1 h2
            subst h1
            exact ⟨rfl, rfl, rfl, rfl⟩
      case isFalse =>
        injection h with h'
        injection h' with h1 h2
        subst h1
        exact ⟨rfl, rfl, rfl, rfl⟩

/-- C7: position tracking.  When `stream_get` returns a byte: the absolute
offset advances by one; on a newline the line advances, the pre-newline
column is saved and the column resets to 0; otherwise the column advances
exactly when the byte is the first byte of a character (so continuation
bytes leave it unchanged and a multi-byte character advances it once); and
`stream_unget` of that byte restores line, column and offset exactly. -/
theorem C7_stream_position_tracking (s : Stream) (c : Int) (s' : Stream)
    (ev : Option Nat) (hok : s.state = STREAM_STATE_OK)
    (hget : stream_get s = (c, s', ev)) (hc : 0 ≤ c) :
    s'.position = s.position + 1 ∧
    (c = 10 → s'.line = s.line + 1 ∧ s'.column = 0 ∧
      s'.last_column = s.column) ∧
    (c ≠ 10 → utf8_check_first c.toNat ≠ 0 →
      s'.line = s.line ∧ s'.column = s.column + 1) ∧
    (c ≠ 10 → utf8_check_first c.toNat = 0 →
      s'.line = s.line ∧ s'.column = s.column) ∧
    (stream_unget s' c).line = s.line ∧
    (stream_unget s' c).column = s.column ∧
    (stream_unget s' c).position = s.position := by
  unfold stream_get at hget
  rw [if_neg (by simp [hok])] at hget
  rcases hrf : stream_refill s with _ | ⟨s1, ev1⟩ <;> rw [hrf] at hget
  · injection hget with hc1 hrest
    subst hc1
    exact absurd hc (by decide)
  · cases ev1 with
    | some bad =>
      injection hget with hc1 hrest
      subst hc1
      exact absurd hc (by decide)
    | none =>
      obtain ⟨hl, hcol, hlast, hpos⟩ := stream_refill_counters s s1 none hrf
      dsimp only at hget
      set c0 := s1.buffer.getD s1.buffer_pos 0 with hc0
      by_cases h10 : c0 = 10
      · rw [if_pos h10] at hget
        injection hget with hc1 hrest
        injection hrest with hs1 hev
        subst hc1 hs1
        refine ⟨by simp [hpos], fun _ => by simp [hl, hcol, hlast],
                fun hne _ => absurd rfl hne, fun hne _ => absurd rfl hne,
                ?_, ?_, ?_⟩ <;>
          simp [stream_unget, STREAM_STATE_EOF, STREAM_STATE_ERROR,
                hl, hcol, hlast, hpos]
      · rw [if_neg h10] at hget
        by_cases hu : utf8_check_first (c0) ≠ 0
        · rw [if_pos hu] at hget
          injection hget with hc1 hrest
          injection hrest with hs1 hev
          subst hc1 hs1
          have hns : ¬(((c0 : Nat) : Int) =
              STREAM_STATE_EOF ∨
              ((c0 : Nat) : Int) =
              STREAM_STATE_ERROR) := by
            simp only [STREAM_STATE_EOF, STREAM_STATE_ERROR]
            omega
          have h10' : ¬(((c0 : Nat) : Int) = 10) := by
            exact_mod_cast fun hh => h10 (by exact_mod_cast hh)
          refine ⟨by simp [hpos], fun hh => absurd hh h10',
                  fun _ _ => ⟨by simp [hl], by simp [hcol]⟩,
                  fun _ habs => absurd (by simpa using habs) hu,
                  ?_, ?_, ?_⟩ <;>
            simp [stream_unget, hns, h10', hu, hl, hcol, hlast, hpos]
        · rw [if_neg hu] at hget
          injection hget with hc1 hrest
          injection hrest with hs1 hev
          subst hc1 hs1
          have hns : ¬(((c0 : Nat) : Int) =
              STREAM_STATE_EOF ∨
              ((c0 : Nat) : Int) =
              STREAM_STATE_ERROR) := by
            simp only [STREAM_STATE_EOF, STREAM_STATE_ERROR]
            omega
          have h10' : ¬(((c0 : Nat) : Int) = 10) := by
            exact_mod_cast fun hh => h10 (by exact_mod_cast hh)
          have hu0 : utf8_check_first (c0) = 0 := by
            simpa using hu
          refine ⟨by simp [hpos], fun hh => absurd hh h10',
                  fun _ habs => absurd hu0 (by simpa using habs),
                  fun _ _ => ⟨by simp [hl], by simp [hcol]⟩,
                  ?_, ?_, ?_⟩ <;>
            simp [stream_unget, hns, h10', hu0, hl, hcol, hlast, hpos]


/-- Witness for C7: pulling `'a'` from a fresh stream advances position and
column to 1; ungetting it restores both to 0. -/
theorem C7_stream_position_tracking_witness :
    (stream_get (stream_init [97])).2.1.position = 1 ∧
    (stream_get (stream_init [97])).2.1.column = 1 ∧
    (stream_unget (stream_get (stream_init [97])).2.1 97).position = 0 ∧
    (stream_unget (stream_get (stream_init [97])).2.1 97).column = 0 := by
  have h := C7_stream_position_tracking (stream_init [97]) 97
    (stream_get (stream_init [97])).2.1 none rfl rfl (by decide)
  exact ⟨h.1.trans rfl, ((h.2.2.1 (by decide) (by decide)).2).trans rfl,
         h.2.2.2.2.2.2.trans rfl, h.2.2.2.2.2.1.trans rfl⟩

/-- C1 (code bug): the claim says a `\u` escape whose four following
characters are not all hex digits is rejected with an `"invalid escape"`
lexical error.  The macro `l_isxdigit` as written —
`(l_isdigit(c) || 'A' <= (c) || (c) <= 'F' || 'a' <= (c) || (c) <= 'f')`,
missing the `&&`s of the intended range checks — is identically true, so the
validation pass accepts any four characters after `\u`; on the input
`"\u!!!!"` the scan is not stopped by an `"invalid escape"` error but
proceeds into the decoding pass (where `decode_unicode_escape`'s
`assert(0)` is reached for each non-hex character; with assertions disabled
the accumulated value is 0 and the scan ends with the unrelated
`"\u0000 is not allowed"` diagnostic). -/
theorem C1_l_isxdigit_bug :
    (∀ c : Int, l_isxdigit c = true) ∧
    (json_loadb (bytes "\"\\u!!!!\"") 30 flagsAny).map
        (fun r => (r.1.isSome, r.2.text)) =
      some (false, bytes "\\u0000 is not allowed near '\"\\u!!!!\"'") := by
  constructor
  · intro c
    simp only [l_isxdigit, l_isdigit, Bool.or_eq_true, decide_eq_true_eq]
    omega
  · rfl

/-- One hex-digit step of `decode_unicode_escape` on an uppercase-hex
digit. -/
theorem decode_hex_step_upper (v : Int) (d : Nat) (hd : d < 16) :
    decode_hex_step v (hexDigitUpper d) = v * 16 + d := by
  unfold decode_hex_step hexDigitUpper l_isdigit l_islower l_isupper
  by_cases h : d < 10 <;>
    simp only [h, if_true, if_false] <;>
    split_ifs with h1 h2 h3 <;>
    simp_all <;> push_cast at * <;> omega

theorem take4_hex4 (h : Nat) (X : List Nat) :
    (hex4Upper h ++ X).take 4 = hex4Upper h := by
  simp [hex4Upper]

theorem drop4_hex4 (h : Nat) (X : List Nat) :
    (hex4Upper h ++ X).drop 4 = X := by
  simp [hex4Upper]

/-- `decode_unicode_escape` over `u` plus the four uppercase-hex digits of a
16-bit value recovers that value. -/
theorem decode_hex4_append (h : Nat) (hh : h < 65536) (X : List Nat) :
    decode_unicode_escape (117 :: (hex4Upper h ++ X)) = (h : Int) := by
  unfold decode_unicode_escape
  rw [List.drop_one, List.tail_cons, take4_hex4]
  unfold hex4Upper
  simp only [List.foldl]
  rw [decode_hex_step_upper _ _ (Nat.mod_lt _ (by omega)),
      decode_hex_step_upper _ _ (Nat.mod_lt _ (by omega)),
      decode_hex_step_upper _ _ (Nat.mod_lt _ (by omega)),
      decode_hex_step_upper _ _ (Nat.mod_lt _ (by omega))]
  omega

/-- C2: surrogate-pair decoding in the second pass of `lex_scan_string`.
A high-surrogate `\uXXXX` escape must be followed by a low-surrogate escape;
the pair combines to `((high-0xD800)<<10)+(low-0xDC00)+0x10000` and is
UTF-8-encoded into the output (first conjunct).  A high surrogate followed by
the closing quote, a high surrogate followed by a non-low-surrogate second
escape, and a lone low surrogate each abort with an "invalid Unicode" error
and yield no string (next three conjuncts).  Concretely, `"\uD83D\uDE00"`
decodes to the UTF-8 bytes `F0 9F 98 80`, while `"\uD800"`, `"\uDC00"` and
`"\u0000"` are rejected end to end (closing conjuncts). -/
theorem C2_surrogate_pair_decoding :
    (∀ fuel hi lo rest t lex e,
      0xD800 ≤ hi → hi ≤ 0xDBFF → 0xDC00 ≤ lo → lo ≤ 0xDFFF →
      decodeStringTail (fuel + 1)
          (92 :: 117 :: (hex4Upper hi ++ (92 :: 117 :: (hex4Upper lo ++ rest))))
          t lex e =
        decodeStringTail fuel rest
          (t ++ (utf8_encode (((hi : Int) - 0xD800) * 1024 +
            ((lo : Int) - 0xDC00) + 0x10000)).getD []) lex e) ∧
    (∀ fuel hi t lex e, 0xD800 ≤ hi → hi ≤ 0xDBFF →
      decodeStringTail (fuel + 1) (92 :: 117 :: (hex4Upper hi ++ [34]))
          t lex e =
        some (none, lex, error_set e (some lex)
          (bytes "invalid Unicode '\\u" ++ hex4Upper hi ++ bytes "'"))) ∧
    (∀ fuel hi lo rest t lex e,
      0xD800 ≤ hi → hi ≤ 0xDBFF → lo < 65536 →
      ¬(0xDC00 ≤ lo ∧ lo ≤ 0xDFFF) →
      decodeStringTail (fuel + 1)
          (92 :: 117 :: (hex4Upper hi ++ (92 :: 117 :: (hex4Upper lo ++ rest))))
          t lex e =
        some (none, lex, error_set e (some lex)
          (bytes "invalid Unicode '\\u" ++ hex4Upper hi ++ bytes "\\u" ++
           hex4Upper lo ++ bytes "'"))) ∧
    (∀ fuel lo X t lex e, 0xDC00 ≤ lo → lo ≤ 0xDFFF →
      decodeStringTail (fuel + 1) (92 :: 117 :: (hex4Upper lo ++ X)) t lex e =
        some (none, lex, error_set e (some lex)
          (bytes "invalid Unicode '\\u" ++ hex4Upper lo ++ bytes "'"))) ∧
    json_loadb (bytes "\"\\uD83D\\uDE00\"") 30 flagsAny =
      some (some (.str [0xF0, 0x9F, 0x98, 0x80]), ⟨-1, -1, 14, []⟩) ∧
    (json_loadb (bytes "\"\\uD800\"") 30 flagsAny).map
        (fun r => (r.1.isSome, r.2.text)) =
      some (false, bytes "invalid Unicode '\\uD800' near '\"\\uD800\"'") ∧
    (json_loadb (bytes "\"\\uDC00\"") 30 flagsAny).map
        (fun r => (r.1.isSome, r.2.text)) =
      some (false, bytes "invalid Unicode '\\uDC00' near '\"\\uDC00\"'") ∧
    (json_loadb (bytes "\"\\u0000\"") 30 flagsAny).map
        (fun r => (r.1.isSome, r.2.text)) =
      some (false, bytes "\\u0000 is not allowed near '\"\\u0000\"'") := by
  refine ⟨?_, ?_, ?_, ?_, by rfl, by rfl, by rfl, by rfl⟩
  · intro fuel hi lo rest t lex e h1 h2 h3 h4
    have hhi : hi < 65536 := by omega
    have hlo : lo < 65536 := by omega
    have hhir : (55296 : Int) ≤ (hi : Int) ∧ (hi : Int) ≤ 56319 :=
      ⟨by exact_mod_cast h1, by exact_mod_cast h2⟩
    have hlor : (56320 : Int) ≤ (lo : Int) ∧ (lo : Int) ≤ 57343 :=
      ⟨by exact_mod_cast h3, by exact_mod_cast h4⟩
    simp only [decodeStringTail]
    rw [decode_hex4_append _ hhi, drop4_hex4]
    simp only [show ((92:Nat) = 34) = False from by simp, if_false, if_true,
               if_pos hhir]
    rw [decode_hex4_append _ hlo, if_pos hlor, drop4_hex4]
  · intro fuel hi t lex e h1 h2
    have hhi : hi < 65536 := by omega
    have hhir : (55296 : Int) ≤ (hi : Int) ∧ (hi : Int) ≤ 56319 :=
      ⟨by exact_mod_cast h1, by exact_mod_cast h2⟩
    simp only [decodeStringTail]
    rw [decode_hex4_append _ hhi, drop4_hex4]
    simp only [show ((92:Nat) = 34) = False from by simp, if_false, if_true,
               if_pos hhir, Int.toNat_natCast]
  · intro fuel hi lo rest t lex e h1 h2 h3 h4
    have hhi : hi < 65536 := by omega
    have hhir : (55296 : Int) ≤ (hi : Int) ∧ (hi : Int) ≤ 56319 :=
      ⟨by exact_mod_cast h1, by exact_mod_cast h2⟩
    have hlor : ¬((56320 : Int) ≤ (lo : Int) ∧ (lo : Int) ≤ 57343) := by
      intro hc
      exact h4 ⟨by exact_mod_cast hc.1, by exact_mod_cast hc.2⟩
    simp only [decodeStringTail]
    rw [decode_hex4_append _ hhi, drop4_hex4]
    simp only [show ((92:Nat) = 34) = False from by simp, if_false, if_true,
               if_pos hhir]
    rw [decode_hex4_append _ h3, if_neg hlor]
    simp only [Int.toNat_natCast]
  · intro fuel lo X t lex e h1 h2
    have hlo : lo < 65536 := by omega
    have hhir : ¬((55296 : Int) ≤ (lo : Int) ∧ (lo : Int) ≤ 56319) := by
      intro hc
      have : lo ≤ 56319 := by exact_mod_cast hc.2
      omega
    have hlor : (56320 : Int) ≤ (lo : Int) ∧ (lo : Int) ≤ 57343 :=
      ⟨by exact_mod_cast h1, by exact_mod_cast h2⟩
    simp only [decodeStringTail]
    rw [decode_hex4_append _ hlo, drop4_hex4]
    simp only [show ((92:Nat) = 34) = False from by simp, if_false, if_true,
               if_neg hhir, if_pos hlor, Int.toNat_natCast]

/-- Witness for C2: the pair `\uD83D\uDE00` (followed by the closing quote)
combines to U+1F600 and UTF-8-encodes to `F0 9F 98 80`. -/
theorem C2_surrogate_pair_decoding_witness :
    decodeStringTail 2
        (92 :: 117 :: (hex4Upper 0xD83D ++ (92 :: 117 ::
          (hex4Upper 0xDE00 ++ [34]))))
        [] (lex_init []) jsonp_error_init =
      some (some [0xF0, 0x9F, 0x98, 0x80], lex_init [], jsonp_error_init) := by
  rw [C2_surrogate_pair_decoding.1 1 0xD83D 0xDE00 [34] [] (lex_init [])
      jsonp_error_init (by decide) (by decide) (by decide) (by decide)]
  rfl

set_option maxRecDepth 4000 in
theorem grammar_chunk_48 :
    ∀ s ∈ tuplesUpTo 3,
      scanNumberOutcome (48 :: s) = specNumberMatch (48 :: s) := by
  decide

set_option maxRecDepth 4000 in
theorem grammar_chunk_49 :
    ∀ s ∈ tuplesUpTo 3,
      scanNumberOutcome (49 :: s) = specNumberMatch (49 :: s) := by
  decide

set_option maxRecDepth 4000 in
theorem grammar_chunk_53 :
    ∀ s ∈ tuplesUpTo 3,
      scanNumberOutcome (53 :: s) = specNumberMatch (53 :: s) := by
  decide

set_option maxRecDepth 4000 in
theorem grammar_chunk_46 :
    ∀ s ∈ tuplesUpTo 3,
      scanNumberOutcome (46 :: s) = specNumberMatch (46 :: s) := by
  decide

set_option maxRecDepth 4000 in
theorem grammar_chunk_101 :
    ∀ s ∈ tuplesUpTo 3,
      scanNumberOutcome (101 :: s) = specNumberMatch (101 :: s) := by
  decide

set_option maxRecDepth 4000 in
theorem grammar_chunk_69 :
    ∀ s ∈ tuplesUpTo 3,
      scanNumberOutcome (69 :: s) = specNumberMatch (69 :: s) := by
  decide

set_option maxRecDepth 4000 in
theorem grammar_chunk_43 :
    ∀ s ∈ tuplesUpTo 3,
      scanNumberOutcome (43 :: s) = specNumberMatch (43 :: s) := by
  decide

set_option maxRecDepth 4000 in
theorem grammar_chunk_45 :
    ∀ s ∈ tuplesUpTo 3,
      scanNumberOutcome (45 :: s) = specNumberMatch (45 :: s) := by
  decide

/-- Exhaustively over every string of length ≤ 4 from the number alphabet
`0 1 5 . e E + -`, the lexer recognizes exactly the spec's strict grammar,
with INTEGER for literals without fraction/exponent and REAL otherwise. -/
theorem grammar_exhaustive_len4 :
    ∀ s ∈ tuplesUpTo 4, scanNumberOutcome s = specNumberMatch s := by
  intro s hs
  rw [show tuplesUpTo 4 = [] :: (tuplesUpTo 3).flatMap
        (fun s => numAlphabet.map (fun c => c :: s)) from rfl] at hs
  simp only [List.mem_cons, List.mem_flatMap, List.mem_map] at hs
  rcases hs with rfl | ⟨s', hs', c, hc, rfl⟩
  · decide
  · have hc' : c = 48 ∨ c = 49 ∨ c = 53 ∨ c = 46 ∨ c = 101 ∨ c = 69 ∨
        c = 43 ∨ c = 45 := by
      simpa [numAlphabet, bytes] using hc
    rcases hc' with rfl | rfl | rfl | rfl | rfl | rfl | rfl | rfl
    · exact grammar_chunk_48 s' hs'
    · exact grammar_chunk_49 s' hs'
    · exact grammar_chunk_53 s' hs'
    · exact grammar_chunk_46 s' hs'
    · exact grammar_chunk_101 s' hs'
    · exact grammar_chunk_69 s' hs'
    · exact grammar_chunk_43 s' hs'
    · exact grammar_chunk_45 s' hs'

/-- C3: the number lexer accepts exactly the strict grammar — exhaustively so
for every string of length ≤ 4 over the alphabet `0 1 5 . e E + -`, compared
against the spec-side matcher `specNumberMatch`, with INTEGER exactly when
neither fraction nor exponent is present and REAL otherwise (first
conjunct); and the spec's example literals behave as stated — `"01"`, `"1e"`
and `"1."` are rejected, `"0"` decodes to integer 0, `"-0"` is accepted
(integer 0), `"1.5e10"` decodes to a real. -/
theorem C3_number_grammar :
    (∀ s ∈ tuplesUpTo 4, scanNumberOutcome s = specNumberMatch s) ∧
    (json_loadb (bytes "01") 30 flagsAny).map
        (fun r => (r.1.isSome, r.2.text)) =
      some (false, bytes "invalid token near '0'") ∧
    (json_loadb (bytes "1e") 30 flagsAny).map
        (fun r => (r.1.isSome, r.2.text)) =
      some (false, bytes "invalid token near '1e'") ∧
    (json_loadb (bytes "1.") 30 flagsAny).map
        (fun r => (r.1.isSome, r.2.text)) =
      some (false, bytes "invalid token near '1.'") ∧
    json_loadb (bytes "0") 30 flagsAny = some (some (.int 0), ⟨-1, -1, 1, []⟩) ∧
    json_loadb (bytes "-0") 30 flagsAny =
      some (some (.int 0), ⟨-1, -1, 2, []⟩) ∧
    json_loadb (bytes "1.5e10") 30 flagsAny =
      some (some (.real (bytes "1.5e10")), ⟨-1, -1, 6, []⟩) ∧
    (lex_scan 30 (lex_init (bytes "12345")) jsonp_error_init).map
        (fun r => (r.1.token, r.1.vInt)) = some (TOKEN_INTEGER, 12345) ∧
    (lex_scan 30 (lex_init (bytes "-12")) jsonp_error_init).map
        (fun r => (r.1.token, r.1.vInt)) = some (TOKEN_INTEGER, -12) ∧
    (lex_scan 30 (lex_init (bytes "0e0")) jsonp_error_init).map
        (fun r => r.1.token) = some TOKEN_REAL ∧
    (lex_scan 30 (lex_init (bytes "1E+3")) jsonp_error_init).map
        (fun r => r.1.token) = some TOKEN_REAL ∧
    (lex_scan 30 (lex_init (bytes "0.5")) jsonp_error_init).map
        (fun r => r.1.token) = some TOKEN_REAL ∧
    (lex_scan 30 (lex_init (bytes "01")) jsonp_error_init).map
        (fun r => r.1.token) = some TOKEN_INVALID ∧
    (lex_scan 30 (lex_init (bytes "-")) jsonp_error_init).map
        (fun r => r.1.token) = some TOKEN_INVALID := by
  exact ⟨grammar_exhaustive_len4, rfl, rfl, rfl, rfl, rfl, rfl, rfl, rfl, rfl,
         rfl, rfl, rfl, rfl⟩

/-- A list short enough to survive truncation is a prefix of the truncated
append. -/
theorem prefix_take_append (msg suf : List Nat) (n : Nat)
    (h : msg.length ≤ n) : msg <+: (msg ++ suf).take n := by
  rw [List.take_append_eq_append_take, List.take_of_length_le h]
  exact ⟨_, rfl⟩

/-- On a fresh error record, the base message is a prefix of whatever
`error_set` records (whichever context suffix is chosen). -/
theorem error_set_msg_prefix (e : JError) (lex : Lex) (msg : List Nat)
    (hfresh : e.text = []) (hlen : msg.length ≤ 159) :
    msg <+: (error_set e (some lex) msg).text := by
  have hmt : errTrunc msg = msg := List.take_of_length_le (by
    simpa [errTrunc, JSON_ERROR_TEXT_LENGTH] using hlen)
  unfold error_set jsonp_error_set
  simp only [hfresh, hmt]
  split_ifs <;> simp_all [errTrunc, JSON_ERROR_TEXT_LENGTH, List.take_take]
  · exact prefix_take_append _ _ _ (by simpa using hlen)
  · exact prefix_take_append _ _ _ (by simpa using hlen)

/-- `parse_json` with `JSON_DECODE_ANY` unset and a first token other than
`{` or `[` fails through the `"'[' or '\x7b' expected"` report. -/
theorem parse_json_top_shape_error (fuel : Nat) (fl : Flags) (lex : Lex) (e : JError)
    (lex1 : Lex) (e1 : JError) (hda : fl.decode_any = false)
    (hscan : lex_scan fuel lex e = some (lex1, e1))
    (h91 : lex1.token ≠ 91) (h123 : lex1.token ≠ 123) :
    parse_json fuel fl lex e =
      some (none, lex1, error_set e1 (some lex1)
        (bytes "'[' or '\x7b' expected")) ∧
    (e1.text = [] →
      bytes "'[' or '\x7b' expected" <+:
        (error_set e1 (some lex1) (bytes "'[' or '\x7b' expected")).text) := by
  constructor
  · unfold parse_json
    simp only [hscan]
    rw [if_pos ⟨by simp [hda], h91, h123⟩]
  · intro hf
    exact error_set_msg_prefix _ _ _ hf (by decide)

/-- `parse_json` with `JSON_DISABLE_EOF_CHECK` set succeeds as soon as the
value parses, regardless of trailing content, recording bytes consumed. -/
theorem parse_json_no_eof_check_success (fuel : Nat) (fl : Flags) (lex : Lex) (e : JError) (lex1 : Lex)
    (e1 : JError) (v : Json) (lex2 : Lex) (e2 : JError)
    (hde : fl.disable_eof_check = true)
    (hscan : lex_scan fuel lex e = some (lex1, e1))
    (htop : fl.decode_any = true ∨ lex1.token = 91 ∨ lex1.token = 123)
    (hpv : parse_value fuel fl lex1 e1 = some (some v, lex2, e2)) :
    parse_json fuel fl lex e =
      some (some v, lex2, { e2 with position := lex2.stream.position }) := by
  unfold parse_json
  simp only [hscan]
  rw [if_neg (by rcases htop with h | h | h <;> simp [h])]
  simp only [hpv]
  rw [if_neg (by simp [hde])]

/-- `parse_json` with the EOF check in force fails through the
`"end of file expected"` report when the token after the value is not END. -/
theorem parse_json_eof_check_failure (fuel : Nat) (fl : Flags) (lex : Lex) (e : JError) (lex1 : Lex)
    (e1 : JError) (v : Json) (lex2 : Lex) (e2 : JError) (lex3 : Lex)
    (e3 : JError) (hde : fl.disable_eof_check = false)
    (hscan : lex_scan fuel lex e = some (lex1, e1))
    (htop : fl.decode_any = true ∨ lex1.token = 91 ∨ lex1.token = 123)
    (hpv : parse_value fuel fl lex1 e1 = some (some v, lex2, e2))
    (hscan2 : lex_scan fuel lex2 e2 = some (lex3, e3))
    (heof : lex3.token ≠ TOKEN_EOF) :
    parse_json fuel fl lex e =
      some (none, lex3, error_set e3 (some lex3)
        (bytes "end of file expected")) ∧
    (e3.text = [] →
      bytes "end of file expected" <+:
        (error_set e3 (some lex3) (bytes "end of file expected")).text) := by
  constructor
  · unfold parse_json
    simp only [hscan]
    rw [if_neg (by rcases htop with h | h | h <;> simp [h])]
    simp only [hpv]
    rw [if_pos (by simp [hde])]
    simp only [hscan2]
    rw [if_pos heof]
  · intro hf
    exact error_set_msg_prefix _ _ _ hf (by decide)

/-- On every success the error record's position field holds the stream's
absolute byte offset just past the parsed value. -/
theorem parse_json_success_position (fuel : Nat) (fl : Flags) (lex : Lex) (e : JError) (v : Json)
    (lex' : Lex) (e' : JError)
    (h : parse_json fuel fl lex e = some (some v, lex', e')) :
    e'.position = lex'.stream.position := by
  unfold parse_json at h
  rcases hs : lex_scan fuel lex e with _ | ⟨l1, e1⟩
  · rw [hs] at h
    exact Option.noConfusion h
  simp only [hs] at h
  by_cases hcond : ¬ (fl.decode_any = true) ∧ l1.token ≠ 91 ∧ l1.token ≠ 123
  · rw [if_pos hcond] at h
    injection h with h'
    injection h' with ha hb
    exact Option.noConfusion ha
  · rw [if_neg hcond] at h
    split at h
    · exact Option.noConfusion h
    · injection h with h'
      injection h' with ha hb
      exact Option.noConfusion ha
    next jv lx ex heq =>
      by_cases hde : ¬ (fl.disable_eof_check = true)
      · rw [if_pos hde] at h
        split at h
        · exact Option.noConfusion h
        next l3 e3 heq2 =>
          by_cases he : l3.token ≠ TOKEN_EOF
          · rw [if_pos he] at h
            injection h with h'
            injection h' with ha hb
            exact Option.noConfusion ha
          · rw [if_neg he] at h
            injection h with h'
            injection h' with ha hrest
            injection hrest with hb hc
            subst hb
            subst hc
            rfl
      · rw [if_neg hde] at h
        injection h with h'
        injection h' with ha hrest
        injection hrest with hb hc
        subst hb
        subst hc
        rfl


/-- C4: top-level behavior of `parse_json`.  (1) With
allow-top-level-scalar unset, a first token other than `{`/`[` fails through
the `"'[' or '\x7b' expected"` report (which is the recorded message whenever no
earlier error holds the record).  (2) With exact consumption disabled, a
parsed value yields success regardless of trailing content, with the error
record's position set to the stream offset.  (3) With exact consumption in
force, a non-END token after the value fails through `"end of file
expected"`.  (4) On every success the recorded position is the absolute byte
offset just past the parsed value.  Concretely: bare `42` fails by default
and decodes to integer 42 under `JSON_DECODE_ANY`; `"\x7b\x7d trailing"` fails
exact consumption by default and succeeds with bytes-consumed 2 when the EOF
check is disabled. -/
theorem C4_parse_json_top_level :
    (∀ fuel fl lex e lex1 e1, fl.decode_any = false →
      lex_scan fuel lex e = some (lex1, e1) →
      lex1.token ≠ 91 → lex1.token ≠ 123 →
      parse_json fuel fl lex e =
        some (none, lex1, error_set e1 (some lex1)
          (bytes "'[' or '\x7b' expected")) ∧
      (e1.text = [] →
        bytes "'[' or '\x7b' expected" <+:
          (error_set e1 (some lex1) (bytes "'[' or '\x7b' expected")).text)) ∧
    (∀ fuel fl lex e lex1 e1 v lex2 e2, fl.disable_eof_check = true →
      lex_scan fuel lex e = some (lex1, e1) →
      (fl.decode_any = true ∨ lex1.token = 91 ∨ lex1.token = 123) →
      parse_value fuel fl lex1 e1 = some (some v, lex2, e2) →
      parse_json fuel fl lex e =
        some (some v, lex2, { e2 with position := lex2.stream.position })) ∧
    (∀ fuel fl lex e lex1 e1 v lex2 e2 lex3 e3,
      fl.disable_eof_check = false →
      lex_scan fuel lex e = some (lex1, e1) →
      (fl.decode_any = true ∨ lex1.token = 91 ∨ lex1.token = 123) →
      parse_value fuel fl lex1 e1 = some (some v, lex2, e2) →
      lex_scan fuel lex2 e2 = some (lex3, e3) →
      lex3.token ≠ TOKEN_EOF →
      parse_json fuel fl lex e =
        some (none, lex3, error_set e3 (some lex3)
          (bytes "end of file expected")) ∧
      (e3.text = [] →
        bytes "end of file expected" <+:
          (error_set e3 (some lex3) (bytes "end of file expected")).text)) ∧
    (∀ fuel fl lex e v lex' e',
      parse_json fuel fl lex e = some (some v, lex', e') →
      e'.position = lex'.stream.position) ∧
    (json_loadb (bytes "42") 30 flagsDefault).map
        (fun r => (r.1.isSome, r.2.text)) =
      some (false, bytes "'[' or '\x7b' expected near '42'") ∧
    json_loadb (bytes "42") 30 flagsAny =
      some (some (.int 42), ⟨-1, -1, 2, []⟩) ∧
    (json_loadb (bytes "\x7b\x7d trailing") 30 flagsDefault).map
        (fun r => (r.1.isSome, r.2.text)) =
      some (false, bytes "end of file expected near 'trailing'") ∧
    json_loadb (bytes "\x7b\x7d trailing") 30 flagsNoEof =
      some (some (.obj []), ⟨-1, -1, 2, []⟩) :=
  ⟨parse_json_top_shape_error, parse_json_no_eof_check_success,
   parse_json_eof_check_failure, parse_json_success_position,
   rfl, rfl, rfl, rfl⟩

/-- Overwrite-then-lookup on the modelled object builder returns the written
value (last write wins). -/
theorem json_object_get_set (members : List (List Nat × Json))
    (key : List Nat) (v : Json) :
    json_object_get (json_object_set members key v) key = some v := by
  unfold json_object_get json_object_set
  by_cases h : members.any (fun kv => kv.1 = key)
  · rw [if_pos h]
    induction members with
    | nil => simp at h
    | cons kv rest ih =>
      by_cases hk : kv.1 = key
      · simp [List.find?, hk]
      · have h' : rest.any (fun kv => decide (kv.1 = key)) = true := by
          simp only [List.any_cons, Bool.or_eq_true, decide_eq_true_eq] at h
          rcases h with h | h
          · exact absurd h hk
          · simpa using h
        simp only [List.map_cons, List.find?, hk, if_neg hk, decide_eq_true_eq]
        simpa [hk] using ih h'
  · rw [if_neg h]
    induction members with
    | nil => simp [List.find?]
    | cons kv rest ih =>
      have hk : ¬ (kv.1 = key) := by
        intro hh
        exact h (by simp [List.any_cons, hh])
      have h' : ¬ (rest.any (fun kv => decide (kv.1 = key)) = true) := by
        intro hh
        exact h (by simp [List.any_cons, hh])
      simp only [List.cons_append, List.find?, hk, decide_eq_true_eq]
      simpa using ih h'

/-- With duplicate rejection enabled, the member loop of `parse_object` fails
with `"duplicate object key"` exactly at a key already present in the object
built so far. -/
theorem parse_object_duplicate_error (n : Nat) (fl : Flags)
    (object : List (List Nat × Json)) (l : Lex) (e : JError)
    (key : List Nat) (hdup : fl.reject_duplicates = true)
    (htok : l.token = TOKEN_STRING) (hstr : l.vString = some key)
    (hpresent : (json_object_get object key).isSome) :
    (parserAt (n + 1)).objLoop fl object l e =
      some (none, { l with vString := none },
        error_set e (some { l with vString := none })
          (bytes "duplicate object key")) := by
  have hsteal : lex_steal_string l = (some key, { l with vString := none }) := by
    simp [lex_steal_string, htok, hstr]
  have hcnd : fl.reject_duplicates = true ∧
      (json_object_get object key).isSome = true := ⟨hdup, hpresent⟩
  simp only [parserAt, parserStep]
  rw [if_neg (by simp [htok])]
  simp only [hsteal]
  rw [if_pos hcnd]

/-- C5: duplicate-key policy.  With `JSON_REJECT_DUPLICATES`, the member loop
fails with `"duplicate object key"` whenever the scanned key is already in the
object under construction; without it, insertion overwrites (last write
wins).  Concretely `{"a":1,"a":2}` decodes to an object with `a` = 2 by
default and fails with the duplicate-key diagnostic under rejection. -/
theorem C5_duplicate_keys :
    (∀ n fl object l e key, fl.reject_duplicates = true →
      l.token = TOKEN_STRING → l.vString = some key →
      (json_object_get object key).isSome →
      (parserAt (n + 1)).objLoop fl object l e =
        some (none, { l with vString := none },
          error_set e (some { l with vString := none })
            (bytes "duplicate object key"))) ∧
    (∀ members key v,
      json_object_get (json_object_set members key v) key = some v) ∧
    json_loadb (bytes "\x7b\"a\":1,\"a\":2\x7d") 30 flagsDefault =
      some (some (.obj [(bytes "a", .int 2)]), ⟨-1, -1, 13, []⟩) ∧
    (json_loadb (bytes "\x7b\"a\":1,\"a\":2\x7d") 30 flagsRejectDup).map
        (fun r => (r.1.isSome, r.2.text)) =
      some (false, bytes "duplicate object key near '\"a\"'") :=
  ⟨parse_object_duplicate_error, json_object_get_set, rfl, rfl⟩

/-- The member loop of `parse_object` at a `}` token (the after-comma
re-entry) fails with `"string or '\x7d' expected"`. -/
theorem parse_object_loop_rbrace_error (n : Nat) (fl : Flags)
    (object : List (List Nat × Json)) (l : Lex) (e : JError)
    (htok : l.token = 125) :
    (parserAt (n + 1)).objLoop fl object l e =
      some (none, l, error_set e (some l)
        (bytes "string or '\x7d' expected")) := by
  simp only [parserAt, parserStep]
  rw [if_pos (by simp [htok, TOKEN_STRING])]

/-- `parse_value` at a `]` token falls to the default arm and fails with
`"unexpected token"`. -/
theorem parse_value_rbracket_error (n : Nat) (fl : Flags) (l : Lex)
    (e : JError) (htok : l.token = 93) :
    (parserAt (n + 1)).value fl l e =
      some (none, l, error_set e (some l) (bytes "unexpected token")) := by
  simp only [parserAt, parserStep, htok]
  norm_num [TOKEN_STRING, TOKEN_INTEGER, TOKEN_REAL, TOKEN_TRUE, TOKEN_FALSE,
            TOKEN_NULL, TOKEN_INVALID]

/-- C10: a trailing comma is never accepted.  In an object, a `}` where a
member key is expected (the state after a comma) fails with `"string or '}'
expected"`; in an array, a `]` reaching `parse_value` (the state after a
comma) fails with `"unexpected token"`.  Concretely `{"a":1,}` and `[1,]`
fail end to end with those diagnostics and return no value. -/
theorem C10_trailing_comma :
    (∀ n fl object l e, l.token = 125 →
      (parserAt (n + 1)).objLoop fl object l e =
        some (none, l, error_set e (some l)
          (bytes "string or '\x7d' expected"))) ∧
    (∀ n fl l e, l.token = 93 →
      (parserAt (n + 1)).value fl l e =
        some (none, l, error_set e (some l) (bytes "unexpected token"))) ∧
    (json_loadb (bytes "\x7b\"a\":1,\x7d") 30 flagsDefault).map
        (fun r => (r.1.isSome, r.2.text)) =
      some (false, bytes "string or '\x7d' expected near '\x7d'") ∧
    (json_loadb (bytes "[1,]") 30 flagsDefault).map
        (fun r => (r.1.isSome, r.2.text)) =
      some (false, bytes "unexpected token near ']'") :=
  ⟨parse_object_loop_rbrace_error, parse_value_rbracket_error, rfl, rfl⟩

end Jansson
